import Mathlib

/-!
Verification development for the event-card component (`EventCard`).

The component contains two pure cores:

* `calculateTimeLeft` — the countdown computation: from an event date string,
  an "HH:MM" time-of-day string and the current wall clock, it produces a
  `CountdownState` (days / hrs / mins / secs remaining, plus an `isExpired`
  flag).
* the carousel index arithmetic — `nextImage`, `previousImage`,
  `toggleImageFullscreen` over `currentImageIndex` and the
  `isImageFullscreen` flag.

Modelling conventions.  JavaScript numbers that can be `NaN` are modelled as
`Option Int` (`none` = `NaN`); instants are epoch milliseconds as `Int`.
`Math.floor (a / b)` is floor division `Int.fdiv`, and the JS `%` operator is
the truncating remainder `Int.tmod`.  The host function `new Date(eventDate)`
(the platform's date parser, not part of this repository) is an explicit
parameter `dateParse : String → Option Int` returning the epoch milliseconds
of the local midnight of the parsed calendar day, or `none` for an invalid
date.  `Number(s)` for strings is modelled on (optionally signed) decimal
integer numerals: the empty / all-whitespace string converts to `0`,
anything outside that fragment converts to `NaN`.
-/

/-- The countdown record held in the `countdown` state hook:
`{ days, hrs, mins, secs, isExpired }`. -/
structure CountdownState where
  days : Int
  hrs : Int
  mins : Int
  secs : Int
  isExpired : Bool
deriving DecidableEq, Repr

/-- Expired state: the value `{ days: 0, hrs: 0, mins: 0, secs: 0,
isExpired: true }` stored on every invalid-input, expired or fault path. -/
def expiredState : CountdownState :=
  { days := 0, hrs := 0, mins := 0, secs := 0, isExpired := true }

/-- Split a character list at every occurrence of the separator, keeping
empty segments, exactly as the JS `String.prototype.split` does on a
single-character separator (`"".split(c)` is `[""]`, a trailing separator
yields a trailing empty segment). -/
def splitChars (sep : Char) : List Char → List (List Char)
  | [] => [[]]
  | c :: rest =>
      match splitChars sep rest with
      | [] => [[c]]
      | h :: t => if c = sep then [] :: h :: t else (c :: h) :: t

/-- Strip leading and trailing whitespace, as JS `Number` does before
reading a numeral. -/
def trimChars (cs : List Char) : List Char :=
  ((cs.dropWhile Char.isWhitespace).reverse.dropWhile Char.isWhitespace).reverse

/-- Digit-string accumulator for `jsNumber`. -/
def digitsToNat (cs : List Char) : Nat :=
  cs.foldl (fun n c => n * 10 + (c.toNat - '0'.toNat)) 0

/-- JS `Number(s)` for a string, on the integer-numeral fragment: whitespace
is trimmed, the empty string converts to `0`, an optionally signed decimal
digit string converts to its value, and anything else is `NaN` (`none`). -/
def jsNumber (s : List Char) : Option Int :=
  let t := trimChars s
  if t = [] then some 0
  else
    match t with
    | '-' :: rest =>
        if rest ≠ [] ∧ rest.all Char.isDigit then some (-(digitsToNat rest : Int)) else none
    | '+' :: rest =>
        if rest ≠ [] ∧ rest.all Char.isDigit then some (digitsToNat rest : Int) else none
    | cs =>
        if cs ≠ [] ∧ cs.all Char.isDigit then some (digitsToNat cs : Int) else none

/-- Model of `eventTime.split(':').map(Number)` followed by the array
destructuring `[timeHours, timeMinutes]`: the first two converted
components.  A missing component (array too short, hence `undefined`)
behaves like `NaN` downstream, so it is flattened into `none`. -/
def jsTimeParts (eventTime : String) : Option Int × Option Int :=
  let parts := (splitChars ':' eventTime.data).map jsNumber
  ((parts.get? 0).join, (parts.get? 1).join)

/-- Model of `targetDate.setHours(timeHours, timeMinutes, 0, 0)` on a date
whose local midnight is `dayMs`: JS `MakeTime` yields `NaN` when an argument
is `NaN`, otherwise the fields are set without range clipping (out-of-range
hours or minutes roll over into adjacent days / hours), and `TimeClip` turns
any result beyond ±8.64e15 ms into an invalid date. -/
def jsSetHours (dayMs : Int) (h m : Option Int) : Option Int :=
  match h, m with
  | some hv, some mv =>
      let t := dayMs + hv * 3600000 + mv * 60000
      if t.natAbs ≤ 8640000000000000 then some t else none
  | _, _ => none

/-- The non-expired branch of `calculateTimeLeft`: decomposition of a
(positive) millisecond `difference` into days / hrs / mins / secs via
`Math.floor` and `%`. -/
def decompose (difference : Int) : CountdownState :=
  { days := difference.fdiv 86400000
    hrs := (difference.tmod 86400000).fdiv 3600000
    mins := (difference.tmod 3600000).fdiv 60000
    secs := (difference.tmod 60000).fdiv 1000
    isExpired := false }

/-- Pure model of `calculateTimeLeft` from the `useEffect` body, as a
function of the date parser, the two input strings and the current time
`now` (epoch ms).

Source steps: guard `!eventDate || !eventTime`; split `eventTime` on `:` and
convert with `Number`; `new Date(eventDate)` then `setHours(h, m, 0, 0)`;
guard `isNaN(targetDate.getTime())`; `difference = target - now`; guard
`difference <= 0`; otherwise floor-decompose.  The surrounding
`try ... catch` makes the computation total, returning the expired state on
any fault; in this model every step is already total, so the catch arm is
the `none` branches below. -/
def calculateTimeLeft (dateParse : String → Option Int)
    (eventDate eventTime : String) (now : Int) : CountdownState :=
  if eventDate = "" ∨ eventTime = "" then expiredState
  else
    let th := (jsTimeParts eventTime).1
    let tm := (jsTimeParts eventTime).2
    match dateParse eventDate with
    | none => expiredState
    | some dayMs =>
        match jsSetHours dayMs th tm with
        | none => expiredState
        | some targetMs =>
            let difference := targetMs - now
            if difference ≤ 0 then expiredState
            else decompose difference

/-- A concrete stand-in for the platform date parser, used to evaluate the
model on closed inputs: it knows the single day 2025-01-10 (UTC midnight
1736467200000 ms) and one short alias for it. -/
def demoParse (s : String) : Option Int :=
  if s = "2025-01-10" ∨ s = "d" then some 1736467200000 else none

/-- The JS `%` operator on the number model: `a % 0` is `NaN` (`none`), no
fault is raised; otherwise the truncating remainder. -/
def jsMod (a b : Int) : Option Int :=
  if b = 0 then none else some (a.tmod b)

/-- Advance the carousel, `nextImage`: `(prev + 1) % allImages.length`, over
the sequence length `length` and the previous index `prev`. -/
def nextImage (length prev : Int) : Option Int :=
  jsMod (prev + 1) length

/-- Retreat the carousel, `previousImage`:
`prev === 0 ? allImages.length - 1 : prev - 1`. -/
def previousImage (length prev : Int) : Int :=
  if prev = 0 then length - 1 else prev - 1

/-- The carousel-relevant component state: `currentImageIndex` and
`isImageFullscreen`. -/
structure CarouselState where
  currentImageIndex : Int
  isImageFullscreen : Bool
deriving DecidableEq, Repr

/-- Model of `toggleImageFullscreen`:
`setIsImageFullscreen(!isImageFullscreen)`. -/
def toggleImageFullscreen (s : CarouselState) : CarouselState :=
  { s with isImageFullscreen := !s.isImageFullscreen }

/-- Render guard for the previous/next buttons:
`hasMultipleImages = allImages.length > 1`. -/
def hasMultipleImages (length : Int) : Bool :=
  length > 1

/-- The user events that can reach the carousel state. -/
inductive CarouselEvent
  | nextClick
  | prevClick
  | toggleClick
deriving DecidableEq, Repr

/-- One UI event step of the carousel.  The previous/next buttons are
rendered only under `hasMultipleImages`, so their clicks leave the state
unchanged otherwise; a `none` (`NaN`) index from `nextImage` is unreachable
under that guard, so the step keeps the old index in that branch.  The
fullscreen toggle is a plain flag flip. -/
def carouselEventStep (length : Int) (s : CarouselState) :
    CarouselEvent → CarouselState
  | .nextClick =>
      if hasMultipleImages length then
        match nextImage length s.currentImageIndex with
        | some j => { s with currentImageIndex := j }
        | none => s
      else s
  | .prevClick =>
      if hasMultipleImages length then
        { s with currentImageIndex := previousImage length s.currentImageIndex }
      else s
  | .toggleClick => toggleImageFullscreen s

/-- A single advance/retreat operation, for iterated application. -/
inductive CarouselOp
  | next
  | prev
deriving DecidableEq, Repr

/-- Apply one carousel operation to an index; `none` models the `NaN` that
`%` by zero would produce. -/
def stepOp (length idx : Int) : CarouselOp → Option Int
  | .next => nextImage length idx
  | .prev => some (previousImage length idx)

/-- Apply a list of advance/retreat operations in order. -/
def runOps (length : Int) : List CarouselOp → Int → Option Int
  | [], idx => some idx
  | op :: ops, idx => (stepOp length idx op).bind (runOps length ops)

lemma calculateTimeLeft_eq_of_parse
    (dateParse : String → Option Int) (eventDate eventTime : String)
    (now dayMs th tm : Int)
    (hed : eventDate ≠ "") (het : eventTime ≠ "")
    (hdp : dateParse eventDate = some dayMs)
    (htp : jsTimeParts eventTime = (some th, some tm))
    (hclip : (dayMs + th * 3600000 + tm * 60000).natAbs ≤ 8640000000000000) :
    calculateTimeLeft dateParse eventDate eventTime now =
      if dayMs + th * 3600000 + tm * 60000 - now ≤ 0 then expiredState
      else decompose (dayMs + th * 3600000 + tm * 60000 - now) := by
  unfold calculateTimeLeft
  rw [if_neg (by simp [hed, het])]
  simp only [htp, hdp, jsSetHours]
  rw [if_pos hclip]

lemma countdown_sum_helper (D : Int) (hD : 0 < D) :
    D.fdiv 86400000 * 86400 + (D.tmod 86400000).fdiv 3600000 * 3600 +
      (D.tmod 3600000).fdiv 60000 * 60 + (D.tmod 60000).fdiv 1000 =
      D.fdiv 1000 := by
  have e1 : D.tmod 86400000 = D % 86400000 := Int.tmod_eq_emod hD.le (by norm_num)
  have e2 : D.tmod 3600000 = D % 3600000 := Int.tmod_eq_emod hD.le (by norm_num)
  have e3 : D.tmod 60000 = D % 60000 := Int.tmod_eq_emod hD.le (by norm_num)
  have hm1 : (0:Int) ≤ D % 86400000 := Int.emod_nonneg D (by norm_num)
  have hm2 : (0:Int) ≤ D % 3600000 := Int.emod_nonneg D (by norm_num)
  have hm3 : (0:Int) ≤ D % 60000 := Int.emod_nonneg D (by norm_num)
  rw [e1, e2, e3, Int.fdiv_eq_ediv _ (by norm_num : (0:Int) ≤ 86400000),
    Int.fdiv_eq_ediv _ (by norm_num : (0:Int) ≤ 3600000),
    Int.fdiv_eq_ediv _ (by norm_num : (0:Int) ≤ 60000),
    Int.fdiv_eq_ediv _ (by norm_num : (0:Int) ≤ 1000),
    Int.fdiv_eq_ediv _ (by norm_num : (0:Int) ≤ 1000)]
  omega

/-- C1: for valid inputs whose millisecond difference to the target instant
is strictly positive, `calculateTimeLeft` returns a non-expired state whose
fields are the floor-division decomposition of the difference, and the total
seconds they encode equal `floor(difference / 1000)`. -/
theorem countdown_positive_difference_decomposition
    (dateParse : String → Option Int) (eventDate eventTime : String)
    (now dayMs th tm targetMs difference : Int)
    (hed : eventDate ≠ "") (het : eventTime ≠ "")
    (hdp : dateParse eventDate = some dayMs)
    (htp : jsTimeParts eventTime = (some th, some tm))
    (htarget : targetMs = dayMs + th * 3600000 + tm * 60000)
    (hclip : targetMs.natAbs ≤ 8640000000000000)
    (hdiff : difference = targetMs - now)
    (hpos : 0 < difference) :
    calculateTimeLeft dateParse eventDate eventTime now =
      { days := difference.fdiv 86400000
        hrs := (difference.tmod 86400000).fdiv 3600000
        mins := (difference.tmod 3600000).fdiv 60000
        secs := (difference.tmod 60000).fdiv 1000
        isExpired := false } ∧
    difference.fdiv 86400000 * 86400 + (difference.tmod 86400000).fdiv 3600000 * 3600 +
      (difference.tmod 3600000).fdiv 60000 * 60 + (difference.tmod 60000).fdiv 1000 =
      difference.fdiv 1000 := by
  subst htarget hdiff
  refine ⟨?_, countdown_sum_helper _ hpos⟩
  rw [calculateTimeLeft_eq_of_parse dateParse eventDate eventTime now dayMs th tm
    hed het hdp htp hclip, if_neg (by omega)]
  rfl

/-- Closed instance of C1: the documented scenario, target 2025-01-10 14:00
seen from 2025-01-08 14:00, gives exactly two days left. -/
theorem countdown_positive_difference_decomposition_witness :
    calculateTimeLeft demoParse "2025-01-10" "14:00" 1736344800000 =
      { days := 2, hrs := 0, mins := 0, secs := 0, isExpired := false } := by
  have h := countdown_positive_difference_decomposition demoParse "2025-01-10" "14:00"
    1736344800000 1736467200000 14 0 1736517600000 172800000
    (by decide) (by decide) (by decide) (by decide) (by decide) (by decide)
    (by decide) (by decide)
  exact h.1.trans (by decide)

/-- C2: for valid inputs with `now` at or after the target instant
(difference ≤ 0), `calculateTimeLeft` returns exactly the expired state. -/
theorem countdown_nonpositive_difference_expired
    (dateParse : String → Option Int) (eventDate eventTime : String)
    (now dayMs th tm targetMs : Int)
    (hed : eventDate ≠ "") (het : eventTime ≠ "")
    (hdp : dateParse eventDate = some dayMs)
    (htp : jsTimeParts eventTime = (some th, some tm))
    (htarget : targetMs = dayMs + th * 3600000 + tm * 60000)
    (hclip : targetMs.natAbs ≤ 8640000000000000)
    (hle : targetMs - now ≤ 0) :
    calculateTimeLeft dateParse eventDate eventTime now = expiredState := by
  subst htarget
  rw [calculateTimeLeft_eq_of_parse dateParse eventDate eventTime now dayMs th tm
    hed het hdp htp hclip, if_pos hle]

/-- Closed instance of C2: at the target instant itself the output is the
expired state. -/
theorem countdown_nonpositive_difference_expired_witness :
    calculateTimeLeft demoParse "2025-01-10" "14:00" 1736517600000 = expiredState :=
  countdown_nonpositive_difference_expired demoParse "2025-01-10" "14:00"
    1736517600000 1736467200000 14 0 1736517600000
    (by decide) (by decide) (by decide) (by decide) (by decide) (by decide) (by decide)

/-- C3 fails as stated: the hour component 25 is outside 0–23, so the claim
requires the expired state, but the code rolls the extra hours into the next
day and reports a live countdown. -/
theorem countdown_malformed_time_counterexample :
    jsTimeParts "25:00" = (some 25, some 0) ∧
    calculateTimeLeft demoParse "d" "25:00" 1736467200000 ≠ expiredState ∧
    calculateTimeLeft demoParse "d" "25:00" 1736467200000 =
      { days := 1, hrs := 1, mins := 0, secs := 0, isExpired := false } := by
  decide

/-- C3 amended: absent/empty inputs, an unparseable date, or an hours or
minutes component that fails numeric conversion (`NaN`/missing) all yield
the expired state; numeric out-of-range components are not rejected. -/
theorem countdown_invalid_inputs_expired
    (dateParse : String → Option Int) (eventDate eventTime : String) (now : Int)
    (h : eventDate = "" ∨ eventTime = "" ∨ dateParse eventDate = none ∨
      (jsTimeParts eventTime).1 = none ∨ (jsTimeParts eventTime).2 = none) :
    calculateTimeLeft dateParse eventDate eventTime now = expiredState := by
  unfold calculateTimeLeft
  by_cases hg : eventDate = "" ∨ eventTime = ""
  · rw [if_pos hg]
  · rw [if_neg hg]
    rcases h with h | h | h | h | h
    · exact absurd (Or.inl h) hg
    · exact absurd (Or.inr h) hg
    · simp only [h]
    · cases hdp : dateParse eventDate with
      | none => rfl
      | some dayMs => simp only [h, jsSetHours]
    · cases hdp : dateParse eventDate with
      | none => rfl
      | some dayMs =>
          cases hth : (jsTimeParts eventTime).1 with
          | none => simp only [jsSetHours]
          | some v => simp only [h, jsSetHours]

/-- Closed instance of the amended C3: an unparseable date string yields the
expired state. -/
theorem countdown_invalid_inputs_expired_witness :
    calculateTimeLeft demoParse "garbage" "14:00" 0 = expiredState :=
  countdown_invalid_inputs_expired demoParse "garbage" "14:00" 0 (by decide)

lemma calculateTimeLeft_cases
    (dateParse : String → Option Int) (eventDate eventTime : String) (now : Int) :
    calculateTimeLeft dateParse eventDate eventTime now = expiredState ∨
    ∃ difference : Int, 0 < difference ∧
      calculateTimeLeft dateParse eventDate eventTime now = decompose difference := by
  unfold calculateTimeLeft
  by_cases hg : eventDate = "" ∨ eventTime = ""
  · rw [if_pos hg]; exact Or.inl rfl
  · rw [if_neg hg]
    cases hdp : dateParse eventDate with
    | none => exact Or.inl rfl
    | some dayMs =>
        cases hsh : jsSetHours dayMs (jsTimeParts eventTime).1 (jsTimeParts eventTime).2 with
        | none => simp only [hsh]; exact Or.inl trivial
        | some targetMs =>
            simp only [hsh]
            by_cases hd : targetMs - now ≤ 0
            · rw [if_pos hd]; exact Or.inl rfl
            · rw [if_neg hd]; exact Or.inr ⟨targetMs - now, by omega, rfl⟩

/-- C4: the countdown computation is total and never raises past its
boundary: every input, malformed ones included, yields a well-formed
`CountdownState` — either the expired state or the floor decomposition of a
positive difference. -/
theorem countdown_total_no_fault
    (dateParse : String → Option Int) (eventDate eventTime : String) (now : Int) :
    calculateTimeLeft dateParse eventDate eventTime now = expiredState ∨
    ∃ difference : Int, 0 < difference ∧
      calculateTimeLeft dateParse eventDate eventTime now = decompose difference :=
  calculateTimeLeft_cases dateParse eventDate eventTime now

lemma decompose_bounds (D : Int) (hD : 0 < D) :
    0 ≤ (decompose D).days ∧ 0 ≤ (decompose D).hrs ∧ (decompose D).hrs ≤ 23 ∧
    0 ≤ (decompose D).mins ∧ (decompose D).mins ≤ 59 ∧
    0 ≤ (decompose D).secs ∧ (decompose D).secs ≤ 59 := by
  have e1 : D.tmod 86400000 = D % 86400000 := Int.tmod_eq_emod hD.le (by norm_num)
  have e2 : D.tmod 3600000 = D % 3600000 := Int.tmod_eq_emod hD.le (by norm_num)
  have e3 : D.tmod 60000 = D % 60000 := Int.tmod_eq_emod hD.le (by norm_num)
  simp only [decompose]
  rw [e1, e2, e3, Int.fdiv_eq_ediv _ (by norm_num : (0:Int) ≤ 86400000),
    Int.fdiv_eq_ediv _ (by norm_num : (0:Int) ≤ 3600000),
    Int.fdiv_eq_ediv _ (by norm_num : (0:Int) ≤ 60000),
    Int.fdiv_eq_ediv _ (by norm_num : (0:Int) ≤ 1000)]
  omega

/-- C5: every output of the countdown computation satisfies the data-model
invariant: `days ≥ 0`, `hrs` in 0..23, `mins` and `secs` in 0..59, and an
expired output is exactly the all-zero expired state. -/
theorem countdown_output_invariant
    (dateParse : String → Option Int) (eventDate eventTime : String) (now : Int) :
    0 ≤ (calculateTimeLeft dateParse eventDate eventTime now).days ∧
    0 ≤ (calculateTimeLeft dateParse eventDate eventTime now).hrs ∧
    (calculateTimeLeft dateParse eventDate eventTime now).hrs ≤ 23 ∧
    0 ≤ (calculateTimeLeft dateParse eventDate eventTime now).mins ∧
    (calculateTimeLeft dateParse eventDate eventTime now).mins ≤ 59 ∧
    0 ≤ (calculateTimeLeft dateParse eventDate eventTime now).secs ∧
    (calculateTimeLeft dateParse eventDate eventTime now).secs ≤ 59 ∧
    ((calculateTimeLeft dateParse eventDate eventTime now).isExpired = false ∨
      calculateTimeLeft dateParse eventDate eventTime now = expiredState) := by
  rcases calculateTimeLeft_cases dateParse eventDate eventTime now with h | ⟨d, hd, h⟩
  · rw [h]
    exact ⟨by decide, by decide, by decide, by decide, by decide, by decide,
      by decide, Or.inr rfl⟩
  · rw [h]
    obtain ⟨b1, b2, b3, b4, b5, b6, b7⟩ := decompose_bounds d hd
    exact ⟨b1, b2, b3, b4, b5, b6, b7, Or.inl rfl⟩

lemma nextImage_eq_emod (N i : Int) (hN : 0 < N) (hi : 0 ≤ i) :
    nextImage N i = some ((i + 1) % N) := by
  unfold nextImage jsMod
  rw [if_neg (by omega), Int.tmod_eq_emod (by omega) hN.le]

/-- C6: advance is `(i + 1) mod N` and retreat is `N - 1` from index 0 and
`i - 1` otherwise; for `N = 3` from index 0 three advances give 1, 2, 0 and
one retreat from 0 gives 2. -/
theorem carousel_advance_retreat_formulas (N i : Int) (hN : 0 < N) (hi : 0 ≤ i) :
    nextImage N i = some ((i + 1) % N) ∧
    previousImage N i = (if i = 0 then N - 1 else i - 1) ∧
    nextImage 3 0 = some 1 ∧ nextImage 3 1 = some 2 ∧ nextImage 3 2 = some 0 ∧
    previousImage 3 0 = 2 :=
  ⟨nextImage_eq_emod N i hN hi, rfl, by decide, by decide, by decide, by decide⟩

/-- Closed instance of C6 at `N = 3`, index 0. -/
theorem carousel_advance_retreat_formulas_witness :
    nextImage 3 0 = some ((0 + 1) % 3) ∧
    previousImage 3 0 = (if (0 : Int) = 0 then 3 - 1 else 0 - 1) ∧
    nextImage 3 0 = some 1 ∧ nextImage 3 1 = some 2 ∧ nextImage 3 2 = some 0 ∧
    previousImage 3 0 = 2 :=
  carousel_advance_retreat_formulas 3 0 (by decide) (by decide)

/-- C7: from any index in `[0, N)` with `N > 0`, any sequence of advance and
retreat operations stays defined and keeps the index in `[0, N)`. -/
theorem carousel_index_stays_in_range (N : Int) (ops : List CarouselOp) (i : Int)
    (hN : 0 < N) (h0 : 0 ≤ i) (hi : i < N) :
    ∃ j, runOps N ops i = some j ∧ 0 ≤ j ∧ j < N := by
  induction ops generalizing i with
  | nil => exact ⟨i, rfl, h0, hi⟩
  | cons op ops ih =>
      cases op with
      | next =>
          have hstep : nextImage N i = some ((i + 1) % N) := nextImage_eq_emod N i hN h0
          have h1 : 0 ≤ (i + 1) % N := Int.emod_nonneg _ (by omega)
          have h2 : (i + 1) % N < N := Int.emod_lt_of_pos _ hN
          obtain ⟨j, hj, hj0, hjN⟩ := ih _ h1 h2
          exact ⟨j, by simp [runOps, stepOp, hstep, hj], hj0, hjN⟩
      | prev =>
          have h1 : 0 ≤ previousImage N i := by unfold previousImage; split <;> omega
          have h2 : previousImage N i < N := by unfold previousImage; split <;> omega
          obtain ⟨j, hj, hj0, hjN⟩ := ih _ h1 h2
          exact ⟨j, by simp [runOps, stepOp, hj], hj0, hjN⟩

/-- Closed instance of C7: one advance then one retreat from index 0 with
three images stays in range. -/
theorem carousel_index_stays_in_range_witness :
    ∃ j, runOps 3 [CarouselOp.next, CarouselOp.prev] 0 = some j ∧ 0 ≤ j ∧ j < 3 :=
  carousel_index_stays_in_range 3 [CarouselOp.next, CarouselOp.prev] 0
    (by decide) (by decide) (by decide)

/-- C8: with zero images the advance and retreat clicks are not performed
(the buttons are not rendered), so no modulo is computed and the state is
unchanged; the fullscreen toggle still just flips the flag, and even a raw
modulo by zero would be `NaN`, not a fault. -/
theorem carousel_zero_length_no_modulo (s : CarouselState) :
    carouselEventStep 0 s CarouselEvent.nextClick = s ∧
    carouselEventStep 0 s CarouselEvent.prevClick = s ∧
    carouselEventStep 0 s CarouselEvent.toggleClick = toggleImageFullscreen s ∧
    jsMod (s.currentImageIndex + 1) 0 = none := by
  refine ⟨?_, ?_, rfl, rfl⟩ <;> simp [carouselEventStep, hasMultipleImages]

/-- C9: toggling fullscreen flips the flag and leaves the current image
index (the only other carousel state field) unchanged. -/
theorem toggle_fullscreen_flips_flag_only (s : CarouselState) :
    (toggleImageFullscreen s).isImageFullscreen = !s.isImageFullscreen ∧
    (toggleImageFullscreen s).currentImageIndex = s.currentImageIndex :=
  ⟨rfl, rfl⟩

/-- C10: on indices in `[0, N)` with `N > 0`, advance and retreat are mutual
inverses. -/
theorem carousel_advance_retreat_inverses (N i : Int) (hN : 0 < N) (h0 : 0 ≤ i)
    (hi : i < N) :
    (nextImage N i).map (previousImage N) = some i ∧
    nextImage N (previousImage N i) = some i := by
  constructor
  · rw [nextImage_eq_emod N i hN h0]
    simp only [Option.map_some']
    rcases eq_or_lt_of_le (show i + 1 ≤ N by omega) with hiN | hiN
    · have hz : (i + 1) % N = 0 := by rw [hiN]; exact Int.emod_self
      rw [hz]; unfold previousImage; rw [if_pos rfl]
      exact congrArg some (by omega)
    · have hid : (i + 1) % N = i + 1 := Int.emod_eq_of_lt (by omega) hiN
      rw [hid]; unfold previousImage; rw [if_neg (show ¬(i + 1 = 0) by omega)]
      exact congrArg some (by omega)
  · by_cases h0i : i = 0
    · have hp : previousImage N i = N - 1 := by simp [previousImage, h0i]
      rw [hp, nextImage_eq_emod N (N - 1) hN (by omega)]
      have : N - 1 + 1 = N := by ring
      rw [this, Int.emod_self, h0i]
    · have hp : previousImage N i = i - 1 := by simp [previousImage, h0i]
      rw [hp, nextImage_eq_emod N (i - 1) hN (by omega)]
      have : i - 1 + 1 = i := by ring
      rw [this, Int.emod_eq_of_lt h0 hi]

/-- Closed instance of C10 at `N = 3`, index 1. -/
theorem carousel_advance_retreat_inverses_witness :
    (nextImage 3 1).map (previousImage 3) = some 1 ∧
    nextImage 3 (previousImage 3 1) = some 1 :=
  carousel_advance_retreat_inverses 3 1 (by decide) (by decide) (by decide)
